import Mathlib

/-!
Verification of the element-factory library `react-dom-functions`.

We shallowly embed the JavaScript values the library manipulates and the
dispatch routine shared by every element factory
(`createElement` in `src/htmlElements.ts`, `createMemoizedElement` in
`src/utils.ts`, `fragment`, and the component wrapper producers
`asComponentFn` / `asComponentFnWithChildren`), together with the external
class-name utility `clsx` (modelled from its published implementation) and
the host constructor `React.createElement` (treated, per the spec, as an
opaque constructor recording the element type, the properties value and the
positional child list).
-/

set_option autoImplicit false

/-- The first argument of the host constructor: a raw tag name, the
fragment marker, or a reference to an externally defined component
(components are opaque; we identify them by a number). -/
inductive ElemType where
  | tag (name : String)
  | fragmentTy
  | component (id : Nat)
  deriving DecidableEq, Repr

/-- A JavaScript value, as far as the library inspects values:
`undefined`, `null`, booleans, (integer) numbers, strings, arrays, plain
objects (ordered field lists, mirroring JS insertion order), and host
element nodes.  An element node records the element type, the properties
value passed to the host constructor and the positional child list — the
spec treats the host constructor as opaque, so an element is exactly the
record of the call that produced it. -/
inductive JSVal where
  | undefined
  | null
  | bool (b : Bool)
  | num (n : Int)
  | str (s : String)
  | arr (xs : List JSVal)
  | obj (fields : List (String × JSVal))
  | elem (ty : ElemType) (props : JSVal) (children : List JSVal)

/-- JavaScript truthiness: `undefined`, `null`, `false`, `0` and `""` are
falsy, everything else (objects, arrays, element nodes) is truthy. -/
def truthy : JSVal → Bool
  | .undefined => false
  | .null => false
  | .bool b => b
  | .num n => n != 0
  | .str s => s != ""
  | .arr _ => true
  | .obj _ => true
  | .elem _ _ _ => true

/-- `typeof v === 'object'` — true for `null`, arrays, plain objects and
element nodes. -/
def typeofObject : JSVal → Bool
  | .null => true
  | .arr _ => true
  | .obj _ => true
  | .elem _ _ _ => true
  | _ => false

/-- `React.isValidElement` — true exactly on element nodes. -/
def isValidElement : JSVal → Bool
  | .elem _ _ _ => true
  | _ => false

/-- `Array.isArray`. -/
def isArray : JSVal → Bool
  | .arr _ => true
  | _ => false

/-- `v === undefined`. -/
def isUndef : JSVal → Bool
  | .undefined => true
  | _ => false

/-- `v === null`. -/
def isNull : JSVal → Bool
  | .null => true
  | _ => false

/-- JS property read `o.k` on a plain-object field list: the first binding
of the key, or `undefined` when the key is absent. -/
def getField (fields : List (String × JSVal)) (k : String) : JSVal :=
  match fields.find? (fun p => p.1 == k) with
  | some p => p.2
  | none => .undefined

/-- Whether the object has an own property named `k`
(`Object.hasOwn(o, k)`). -/
def hasField (fields : List (String × JSVal)) (k : String) : Bool :=
  fields.any (fun p => p.1 == k)

/-- The object `{...o, k: v}`: every field of `o` in order, with the
binding of `k` overwritten in place when present and appended otherwise
(JS spread-then-assign property order). -/
def setField (fields : List (String × JSVal)) (k : String) (v : JSVal) :
    List (String × JSVal) :=
  if hasField fields k then
    fields.map (fun p => if p.1 == k then (k, v) else p)
  else
    fields ++ [(k, v)]

/-- The object branch of clsx's `toVal`: append each key whose value is
truthy, separating with a single space when the accumulator is nonempty
(`for (y in mix) if (mix[y]) { str && (str += ' '); str += y; }`). -/
def objVal : List (String × JSVal) → String → String
  | [], acc => acc
  | (k, v) :: fs, acc =>
      objVal fs (if truthy v then (if acc == "" then k else acc ++ " " ++ k) else acc)

mutual

/-- `toVal` from the clsx implementation (clsx is an external dependency of
the library; this is modelled from its source): strings and numbers
stringify; arrays concatenate the recursive values of their truthy members
that stringify to something nonempty, space-separated; objects list their
truthy-valued keys; everything else gives the empty string. -/
def toVal : JSVal → String
  | .undefined => ""
  | .null => ""
  | .bool _ => ""
  | .num n => toString n
  | .str s => s
  | .arr xs => toValList xs ""
  | .obj fields => objVal fields ""
  | .elem _ _ _ => ""

/-- The array loop of clsx's `toVal`:
`if (mix[k]) if (y = toVal(mix[k])) { str && (str += ' '); str += y; }`. -/
def toValList : List JSVal → String → String
  | [], acc => acc
  | x :: xs, acc =>
      toValList xs
        (if truthy x then
          (if toVal x == "" then acc
           else if acc == "" then toVal x else acc ++ " " ++ toVal x)
         else acc)

end

/-- `clsx(v)` with a single argument: the argument contributes its `toVal`
string when it is truthy, otherwise nothing. -/
def clsx (v : JSVal) : String :=
  if truthy v then toVal v else ""

/-- The host constructor `React.createElement(ty, props, ...children)`,
modelled per the spec as an opaque constructor recording its arguments. -/
def reactCreateElement (ty : ElemType) (props : JSVal) (children : List JSVal) : JSVal :=
  .elem ty props children

/-- The shared classification test of every factory in the library:
`propsOrChildren && typeof propsOrChildren === 'object' &&
!React.isValidElement(propsOrChildren) && !Array.isArray(propsOrChildren)`. -/
def isPropsArg (v : JSVal) : Bool :=
  truthy v && typeofObject v && !isValidElement v && !isArray v

/-- The factory body returned by `createElement(tag)` in
`src/htmlElements.ts` (lines 16–46): if the first argument is classified as
a properties object, forward it (running a defined `className` through
`clsx` into a spread copy); otherwise prepend it to the child list and pass
`undefined` as properties. -/
def createElement (tag : String) (propsOrChildren : JSVal)
    (children : List JSVal) : JSVal :=
  if isPropsArg propsOrChildren then
    match propsOrChildren with
    | .obj fields =>
        if isUndef (getField fields "className") then
          -- `props.className !== undefined` is false: props passed through
          reactCreateElement (.tag tag) (.obj fields) children
        else
          reactCreateElement (.tag tag)
            (.obj (setField fields "className"
              (.str (clsx (getField fields "className")))))
            children
    | v => reactCreateElement (.tag tag) v children
  else
    reactCreateElement (.tag tag) .undefined (propsOrChildren :: children)

/-- The `fragment` export of `src/htmlElements.ts` (lines 226–252): same
dispatch, host type `React.Fragment`, and no class-name handling. -/
def fragment (propsOrChildren : JSVal) (children : List JSVal) : JSVal :=
  if isPropsArg propsOrChildren then
    reactCreateElement .fragmentTy propsOrChildren children
  else
    reactCreateElement .fragmentTy .undefined (propsOrChildren :: children)

/-- The body of `elementFunction` inside `createMemoizedElement` in
`src/utils.ts` (lines 19–47).  It is textually the same dispatch as the
factory body of `createElement` in `src/htmlElements.ts`. -/
def elementFunctionOf (tag : String) (propsOrChildren : JSVal)
    (children : List JSVal) : JSVal :=
  if isPropsArg propsOrChildren then
    match propsOrChildren with
    | .obj fields =>
        if isUndef (getField fields "className") then
          reactCreateElement (.tag tag) (.obj fields) children
        else
          reactCreateElement (.tag tag)
            (.obj (setField fields "className"
              (.str (clsx (getField fields "className")))))
            children
    | v => reactCreateElement (.tag tag) v children
  else
    reactCreateElement (.tag tag) .undefined (propsOrChildren :: children)

/-- The state of `elementCache` in `src/utils.ts`: tag names mapped to the
stored factory functions, in insertion order. -/
abbrev Cache : Type :=
  List (String × (JSVal → List JSVal → JSVal))

/-- Every entry of the cache is the factory that `createMemoizedElement`
builds for its key — true of every state the code can reach, since entries
are only ever written by `elementCache.set(tag, elementFunction)`. -/
def CacheWF (st : Cache) : Prop :=
  ∀ p ∈ st, p.2 = elementFunctionOf p.1

/-- `createMemoizedElement` from `src/utils.ts` (lines 14–51): look the tag
up in the cache and return the stored function on a hit; otherwise build
`elementFunction`, store it and return it.  The cache is threaded
explicitly as state. -/
def createMemoizedElement (tag : String) (st : Cache) :
    (JSVal → List JSVal → JSVal) × Cache :=
  match st.find? (fun p => p.1 == tag) with
  | some p => (p.2, st)
  | none => (elementFunctionOf tag, st ++ [(tag, elementFunctionOf tag)])

/-- The wrapper body returned by `asComponentFn(Component)`
(`src/utils.ts` component helpers, lines 142–169 of the bundled file): the
same classification test; a properties object is forwarded unchanged (no
class-name handling), and a first child is prepended to the child list with
`{}` as the properties value. -/
def asComponentFn (comp : Nat) (propsOrChildren : JSVal)
    (children : List JSVal) : JSVal :=
  if isPropsArg propsOrChildren then
    reactCreateElement (.component comp) propsOrChildren children
  else
    reactCreateElement (.component comp) (.obj []) (propsOrChildren :: children)

/-- The wrapper body returned by `asComponentFnWithChildren(Component)`
(lines 176–206 of the bundled file): identical on a properties object; a
first child is carried as the named `children` property (`{ children:
propsOrChildren }`) while the remaining arguments stay positional. -/
def asComponentFnWithChildren (comp : Nat) (propsOrChildren : JSVal)
    (children : List JSVal) : JSVal :=
  if isPropsArg propsOrChildren then
    reactCreateElement (.component comp) propsOrChildren children
  else
    reactCreateElement (.component comp)
      (.obj [("children", propsOrChildren)]) children

/-- Children the host framework ignores at render time (`undefined` and
`null`, per the spec's data model for children). -/
def isIgnoredChild : JSVal → Bool
  | .undefined => true
  | .null => true
  | _ => false

/-- Drop the render-ignored children of an element node; other values are
returned unchanged.  Two elements with the same type and properties that
agree after this stripping render identically. -/
def stripIgnoredChildren : JSVal → JSVal
  | .elem ty props cs => .elem ty props (cs.filter (fun c => !isIgnoredChild c))
  | v => v

/-- The first-argument shapes C1 quantifies over: string, number, element
node, or array — exactly the shapes the dispatch classifies as a child
among non-nullish values. -/
def isChildKind : JSVal → Bool
  | .str _ => true
  | .num _ => true
  | .elem _ _ _ => true
  | .arr _ => true
  | _ => false

/-- The factory body of `createElement`, instrumented for error
propagation: the two external collaborators — the host constructor and the
class-name utility — are passed in as functions that may fail with an error
of an arbitrary type `ε`, and the dispatch is re-read with every external
call at its source position.  The dispatch itself constructs no error: this
is the statement of C9, proved below. -/
def createElementE {ε : Type} (host : ElemType → JSVal → List JSVal → Except ε JSVal)
    (clsxE : JSVal → Except ε String) (tag : String) (propsOrChildren : JSVal)
    (children : List JSVal) : Except ε JSVal :=
  if isPropsArg propsOrChildren then
    match propsOrChildren with
    | .obj fields =>
        if isUndef (getField fields "className") then
          host (.tag tag) (.obj fields) children
        else
          match clsxE (getField fields "className") with
          | .error e => .error e
          | .ok c =>
              host (.tag tag)
                (.obj (setField fields "className" (.str c))) children
    | v => host (.tag tag) v children
  else
    host (.tag tag) .undefined (propsOrChildren :: children)

/-- A heap of plain objects, addressed by index, used to make object
identity and allocation explicit for the non-mutation claim C10.  In this
model the caller's properties object lives in the heap; `createElement`
only ever appends to the heap (the spread `{...props}`), never updates an
existing cell in place. -/
structure Heap where
  objs : List (List (String × JSVal))

/-- Dereference an object. -/
def Heap.lookup (h : Heap) (r : Nat) : List (String × JSVal) :=
  h.objs.getD r []

/-- The first argument of a factory call in the heap model: either a
reference to a heap-resident plain object (classified as properties by the
dispatch) or any other value (classified as a child). -/
inductive HArg where
  | ref (r : Nat)
  | val (v : JSVal)

/-- The factory body of `createElement` re-read over the heap model: a
referenced properties object with a defined `className` is copied by the
spread `{...props, className: clsx(props.className)}` into a freshly
allocated cell; the original cell is never written. -/
def createElementH (tag : String) (h : Heap) (a : HArg) (cs : List JSVal) :
    Heap × JSVal :=
  match a with
  | .ref r =>
      let fields := h.lookup r
      if isUndef (getField fields "className") then
        (h, reactCreateElement (.tag tag) (.obj fields) cs)
      else
        let fresh := setField fields "className"
          (.str (clsx (getField fields "className")))
        (⟨h.objs ++ [fresh]⟩, reactCreateElement (.tag tag) (.obj fresh) cs)
  | .val v => (h, reactCreateElement (.tag tag) .undefined (v :: cs))

/-- Space-join with the accumulator discipline of clsx: the separator is
inserted only when the string built so far is nonempty. -/
def joinSpaceAcc : List String → String → String
  | [], acc => acc
  | k :: ks, acc => joinSpaceAcc ks (if acc == "" then k else acc ++ " " ++ k)

example : createElement "div" (.str "Hello") []
    = .elem (.tag "div") .undefined [.str "Hello"] := by rfl

example : clsx (.arr [.str "a", .bool false, .str "b"]) = "a b" := by rfl

/-! ## Helper lemmas -/

/-- A first argument of one of the child shapes of C1 is never classified
as a properties object. -/
theorem isPropsArg_eq_false_of_isChildKind (c : JSVal) (h : isChildKind c = true) :
    isPropsArg c = false := by
  cases c <;> simp_all [isChildKind, isPropsArg, truthy, typeofObject,
    isValidElement, isArray]

/-- The object branch of clsx equals the space-join, with clsx's separator
discipline, of the keys whose values are truthy, kept in insertion
order. -/
theorem objVal_eq_joinSpaceAcc (fields : List (String × JSVal)) (acc : String) :
    objVal fields acc
      = joinSpaceAcc ((fields.filter (fun p => truthy p.2)).map Prod.fst) acc := by
  induction fields generalizing acc with
  | nil => rfl
  | cons p fs ih =>
      obtain ⟨k, v⟩ := p
      by_cases hv : truthy v = true
      · simp only [objVal, hv, if_pos, List.filter_cons, List.map_cons,
          joinSpaceAcc, ih]
      · simp only [objVal, List.filter_cons, hv, if_neg, Bool.false_eq_true,
          ite_false, ih]

/-- An object with no `className` binding reads `undefined` at that key. -/
theorem getField_eq_undef_of_not_hasField (fields : List (String × JSVal))
    (k : String) (h : hasField fields k = false) : getField fields k = .undefined := by
  have hnone : fields.find? (fun p => p.1 == k) = none := by
    rw [List.find?_eq_none]
    intro x hx
    have := (List.any_eq_false.mp h) x hx
    simpa using this
  simp [getField, hnone]

/-- Appending a cell to the heap leaves every existing cell readable with
its old contents. -/
theorem getD_append_of_lt (l : List (List (String × JSVal)))
    (x : List (String × JSVal)) (i : Nat) (h : i < l.length) :
    (l ++ [x]).getD i [] = l.getD i [] := by
  simp [List.getD, List.getElem?_append_left h]

/-! ## The claims -/

/-- C3: the first argument of an element-factory call is classified as a
properties object if and only if it is non-null, of object type
(`typeof v === 'object'`), not a valid element node of the host framework,
and not an array; in every other case it is the first child.  The code
tests truthiness rather than non-nullness, but on object-typed values the
two coincide (`null` is the only falsy object-typed value). -/
theorem C3_classification (v : JSVal) :
    isPropsArg v = (!isNull v && typeofObject v && !isValidElement v && !isArray v) := by
  cases v <;> simp [isPropsArg, isNull, truthy, typeofObject, isValidElement, isArray]

/-- C7: the class-name normalization is a pure function satisfying the
four reference equations, and on a mapping it emits exactly the keys whose
values are truthy, in insertion order, space-joined. -/
theorem C7_clsx_reference_equations :
    clsx (.arr [.str "a", .bool false, .str "b"]) = "a b"
    ∧ clsx (.obj [("a", .bool true), ("b", .bool false)]) = "a"
    ∧ clsx .undefined = ""
    ∧ clsx (.arr [.str "base", .obj [("cond", .bool true), ("hidden", .bool false)],
        .str "extra"]) = "base cond extra"
    ∧ ∀ fields : List (String × JSVal),
        toVal (.obj fields)
          = joinSpaceAcc ((fields.filter (fun p => truthy p.2)).map Prod.fst) "" := by
  refine ⟨rfl, rfl, rfl, rfl, fun fields => ?_⟩
  simpa [toVal] using objVal_eq_joinSpaceAcc fields ""

/-- C1 counterexample: the claim says `factory(t)(c, ...rest)` returns an
element node equal to the one from `factory(t)(undefined, c, ...rest)`,
but the latter prepends the (falsy, hence child-classified) `undefined`
first argument to the child list, so the two nodes differ by one leading
`undefined` child. -/
theorem C1_counterexample :
    createElement "div" (.str "x") [] ≠ createElement "div" .undefined [.str "x"] := by
  intro h
  have h1 : createElement "div" (.str "x") []
      = .elem (.tag "div") .undefined [.str "x"] := rfl
  have h2 : createElement "div" .undefined [.str "x"]
      = .elem (.tag "div") .undefined [.undefined, .str "x"] := rfl
  rw [h1, h2] at h
  simp at h

/-- C1 (amended): for a non-object first argument `c` (string, number,
element node, or array), `factory(t)(c, ...rest)` and
`factory(t)(undefined, c, ...rest)` build nodes with the same type and
properties whose child lists agree except for one extra leading
`undefined` child in the latter; after dropping the render-ignored
(`undefined`/`null`) children the two nodes are equal. -/
theorem C1_amended (tag : String) (c : JSVal) (rest : List JSVal)
    (h : isChildKind c = true) :
    createElement tag c rest = reactCreateElement (.tag tag) .undefined (c :: rest)
    ∧ createElement tag .undefined (c :: rest)
        = reactCreateElement (.tag tag) .undefined (.undefined :: c :: rest)
    ∧ stripIgnoredChildren (createElement tag c rest)
        = stripIgnoredChildren (createElement tag .undefined (c :: rest)) := by
  have hp : isPropsArg c = false := isPropsArg_eq_false_of_isChildKind c h
  have e1 : createElement tag c rest
      = reactCreateElement (.tag tag) .undefined (c :: rest) := by
    simp [createElement, hp]
  have e2 : createElement tag .undefined (c :: rest)
      = reactCreateElement (.tag tag) .undefined (.undefined :: c :: rest) := rfl
  refine ⟨e1, e2, ?_⟩
  rw [e1, e2]
  simp [reactCreateElement, stripIgnoredChildren, List.filter, isIgnoredChild]

/-- C1 witness: the amended statement at `t = "div"`, `c = "x"`,
`rest = []`. -/
theorem C1_amended_witness :
    createElement "div" (.str "x") [] = reactCreateElement (.tag "div") .undefined [.str "x"]
    ∧ createElement "div" .undefined [.str "x"]
        = reactCreateElement (.tag "div") .undefined [.undefined, .str "x"]
    ∧ stripIgnoredChildren (createElement "div" (.str "x") [])
        = stripIgnoredChildren (createElement "div" .undefined [.str "x"]) :=
  C1_amended "div" (.str "x") [] rfl

/-- C2 counterexample: for a properties object whose `className` is
defined as `undefined`, the code's `props.className !== undefined` test
fails, so the object is forwarded unchanged — the field is not replaced by
the normalization (which would be the string `""`). -/
theorem C2_counterexample :
    createElement "div" (.obj [("className", JSVal.undefined)]) []
        = reactCreateElement (.tag "div") (.obj [("className", JSVal.undefined)]) []
    ∧ JSVal.undefined ≠ JSVal.str (clsx JSVal.undefined) :=
  ⟨rfl, fun h => JSVal.noConfusion h⟩

/-- C2 (amended): for every properties object whose `className` field is
defined with a value other than `undefined` (`null` included), the
properties forwarded to the host constructor are a spread copy with that
field replaced by the class-name normalization of its original value; and
the normalization maps `null` (like `undefined`) to the empty string.  A
`className` defined as `undefined` is left as is: the object is forwarded
unchanged. -/
theorem C2_amended (tag : String) (fields : List (String × JSVal))
    (rest : List JSVal)
    (h : isUndef (getField fields "className") = false) :
    createElement tag (.obj fields) rest
      = reactCreateElement (.tag tag)
          (.obj (setField fields "className"
            (.str (clsx (getField fields "className"))))) rest
    ∧ clsx .null = "" := by
  refine ⟨?_, rfl⟩
  simp [createElement, isPropsArg, truthy, typeofObject, isValidElement,
    isArray, h]

/-- C2 witness: the amended statement at `{className: null}`. -/
theorem C2_amended_witness :
    createElement "div" (.obj [("className", JSVal.null)]) []
      = reactCreateElement (.tag "div")
          (.obj (setField [("className", JSVal.null)] "className"
            (.str (clsx (getField [("className", JSVal.null)] "className"))))) []
    ∧ clsx .null = "" :=
  C2_amended "div" [("className", JSVal.null)] [] rfl

/-- C5 counterexample: `factory(t)()` does not return the host constructor
value for `t` with no properties and no children: the body always passes
its (undefined) first argument along as a child, so the child list is
`[undefined]`, not `[]`. -/
theorem C5_counterexample :
    createElement "div" .undefined [] ≠ reactCreateElement (.tag "div") .undefined [] := by
  intro h
  have h1 : createElement "div" .undefined []
      = .elem (.tag "div") .undefined [.undefined] := rfl
  rw [h1] at h
  simp [reactCreateElement] at h

/-- C5 (amended): `factory(t)()` returns the host constructor value for
`t` with no properties and the single child `undefined`; since the host
framework ignores `undefined` children at render time, after dropping
ignored children this equals the host constructor value with no
children. -/
theorem C5_amended (tag : String) :
    createElement tag .undefined [] = reactCreateElement (.tag tag) .undefined [JSVal.undefined]
    ∧ stripIgnoredChildren (createElement tag .undefined [])
        = stripIgnoredChildren (reactCreateElement (.tag tag) .undefined []) := by
  refine ⟨rfl, ?_⟩
  simp [createElement, reactCreateElement, stripIgnoredChildren,
    List.filter, isIgnoredChild, isPropsArg, truthy]

/-- C6: a properties object with no `className` field is forwarded to the
host constructor as is (the very same object, no copy), with the remaining
arguments as the child list. -/
theorem C6_props_forwarded_unchanged (tag : String)
    (fields : List (String × JSVal)) (rest : List JSVal)
    (h : hasField fields "className" = false) :
    createElement tag (.obj fields) rest
      = reactCreateElement (.tag tag) (.obj fields) rest := by
  have hg := getField_eq_undef_of_not_hasField fields "className" h
  simp [createElement, isPropsArg, truthy, typeofObject, isValidElement,
    isArray, hg, isUndef]

/-- C6 witness: a properties object `{id: "x"}` is forwarded unchanged. -/
theorem C6_props_forwarded_unchanged_witness :
    createElement "div" (.obj [("id", JSVal.str "x")]) [JSVal.str "hi"]
      = reactCreateElement (.tag "div") (.obj [("id", JSVal.str "x")]) [JSVal.str "hi"] :=
  C6_props_forwarded_unchanged "div" [("id", JSVal.str "x")] [JSVal.str "hi"] rfl

/-- C4: the wrappers produced by `asComponentFn` and
`asComponentFnWithChildren` run the identical classification as the tag
factories (the same four-conjunct test) and apply no class-name handling:
a properties object is forwarded unchanged; a first argument classified as
a child is passed with the empty object `{}` as properties and prepended
to the remaining arguments by `asComponentFn`, while
`asComponentFnWithChildren` instead carries it as the named `children`
property with the remaining arguments staying positional. -/
theorem C4_component_dispatch (comp : Nat) (v : JSVal) (rest : List JSVal) :
    (isPropsArg v = true →
      asComponentFn comp v rest = reactCreateElement (.component comp) v rest
      ∧ asComponentFnWithChildren comp v rest
          = reactCreateElement (.component comp) v rest)
    ∧ (isPropsArg v = false →
      asComponentFn comp v rest
          = reactCreateElement (.component comp) (.obj []) (v :: rest)
      ∧ asComponentFnWithChildren comp v rest
          = reactCreateElement (.component comp) (.obj [("children", v)]) rest) := by
  constructor <;> intro h <;>
    exact ⟨by simp [asComponentFn, h], by simp [asComponentFnWithChildren, h]⟩

/-- C4 witness: the child branch of both wrappers at the string first
argument `"hi"` and no further arguments. -/
theorem C4_component_dispatch_witness :
    asComponentFn 0 (JSVal.str "hi") []
        = reactCreateElement (.component 0) (.obj []) [JSVal.str "hi"]
    ∧ asComponentFnWithChildren 0 (JSVal.str "hi") []
        = reactCreateElement (.component 0) (.obj [("children", JSVal.str "hi")]) [] :=
  (C4_component_dispatch 0 (JSVal.str "hi") []).2 rfl

/-- C8: on any reachable cache state (one whose entries are the factories
the code stores), calling `createMemoizedElement` twice with the same tag
returns the same function instance — the second call serves it from the
cache — and the returned function is always the dispatch body, which
behaves exactly like the uncached factory of `createElement` on every
argument list: the cache changes no observable behavior. -/
theorem C8_memoized_idempotent (tag : String) (st : Cache) (hwf : CacheWF st) :
    (createMemoizedElement tag (createMemoizedElement tag st).2).1
        = (createMemoizedElement tag st).1
    ∧ (createMemoizedElement tag st).1 = elementFunctionOf tag
    ∧ ∀ (v : JSVal) (cs : List JSVal),
        (createMemoizedElement tag st).1 v cs = createElement tag v cs := by
  have hstored : (createMemoizedElement tag st).1 = elementFunctionOf tag := by
    cases hfind : st.find? (fun p => p.1 == tag) with
    | none => simp [createMemoizedElement, hfind]
    | some p =>
        have hmem : p ∈ st := List.mem_of_find?_eq_some hfind
        have hkey : p.1 = tag := by
          have := List.find?_some hfind
          simpa using this
        simp [createMemoizedElement, hfind, hwf p hmem, hkey]
  refine ⟨?_, hstored, fun v cs => by rw [hstored]; exact rfl⟩
  cases hfind : st.find? (fun p => p.1 == tag) with
  | none =>
      have hfind2 : (st ++ [(tag, elementFunctionOf tag)]).find?
          (fun p => p.1 == tag) = some (tag, elementFunctionOf tag) := by
        rw [List.find?_append, hfind]
        simp
      simp [createMemoizedElement, hfind, hfind2]
  | some p => simp [createMemoizedElement, hfind]

/-- C8 witness: starting from the empty cache (which trivially satisfies
the reachability invariant) with the tag `"div"`. -/
theorem C8_memoized_idempotent_witness :
    (createMemoizedElement "div" (createMemoizedElement "div" []).2).1
        = (createMemoizedElement "div" []).1
    ∧ (createMemoizedElement "div" []).1 = elementFunctionOf "div"
    ∧ ∀ (v : JSVal) (cs : List JSVal),
        (createMemoizedElement "div" []).1 v cs = createElement "div" v cs :=
  C8_memoized_idempotent "div" [] (by intro p hp; cases hp)

/-- C9: the dispatch raises no error of its own.  Over the
error-instrumented reading of the factory body, for every argument list
the result is either exactly the value of one host-constructor call, or
exactly an error produced by the class-name utility, propagated unchanged;
and when the two collaborators never fail, the instrumented body computes
precisely the pure factory of `createElement`. -/
theorem C9_no_own_errors {ε : Type}
    (host : ElemType → JSVal → List JSVal → Except ε JSVal)
    (clsxE : JSVal → Except ε String) (tag : String) (v : JSVal)
    (cs : List JSVal) :
    ((∃ ty props cs2, createElementE host clsxE tag v cs = host ty props cs2)
      ∨ (∃ cv e, clsxE cv = .error e
          ∧ createElementE host clsxE tag v cs = .error e))
    ∧ ∀ (v2 : JSVal) (cs2 : List JSVal),
        createElementE
            (fun ty p c => (.ok (reactCreateElement ty p c) : Except ε JSVal))
            (fun x => .ok (clsx x)) tag v2 cs2
          = .ok (createElement tag v2 cs2) := by
  constructor
  · cases hp : isPropsArg v with
    | false =>
        exact Or.inl ⟨.tag tag, .undefined, v :: cs, by simp [createElementE, hp]⟩
    | true =>
        cases v with
        | obj fields =>
            cases hu : isUndef (getField fields "className") with
            | true =>
                exact Or.inl ⟨.tag tag, .obj fields, cs,
                  by simp [createElementE, hp, hu]⟩
            | false =>
                cases hcl : clsxE (getField fields "className") with
                | ok c =>
                    exact Or.inl ⟨.tag tag,
                      .obj (setField fields "className" (.str c)), cs,
                      by simp [createElementE, hp, hu, hcl]⟩
                | error e =>
                    exact Or.inr ⟨getField fields "className", e, hcl,
                      by simp [createElementE, hp, hu, hcl]⟩
        | undefined => exact Or.inl ⟨.tag tag, .undefined, cs, by simp [createElementE, hp]⟩
        | null => exact Or.inl ⟨.tag tag, .null, cs, by simp [createElementE, hp]⟩
        | bool b => exact Or.inl ⟨.tag tag, .bool b, cs, by simp [createElementE, hp]⟩
        | num n => exact Or.inl ⟨.tag tag, .num n, cs, by simp [createElementE, hp]⟩
        | str s => exact Or.inl ⟨.tag tag, .str s, cs, by simp [createElementE, hp]⟩
        | arr xs => exact Or.inl ⟨.tag tag, .arr xs, cs, by simp [createElementE, hp]⟩
        | elem ty props children =>
            exact Or.inl ⟨.tag tag, .elem ty props children, cs,
              by simp [createElementE, hp]⟩
  · intro v2 cs2
    cases hp : isPropsArg v2 with
    | false => simp [createElementE, createElement, hp]
    | true =>
        cases v2 with
        | obj fields =>
            cases hu : isUndef (getField fields "className") with
            | true => simp [createElementE, createElement, hp, hu]
            | false => simp [createElementE, createElement, hp, hu]
        | undefined => simp [createElementE, createElement, hp]
        | null => simp [createElementE, createElement, hp]
        | bool b => simp [createElementE, createElement, hp]
        | num n => simp [createElementE, createElement, hp]
        | str s => simp [createElementE, createElement, hp]
        | arr xs => simp [createElementE, createElement, hp]
        | elem ty props children => simp [createElementE, createElement, hp]

/-- C10: when the first argument is a properties object with a defined
`className`, the caller's object is never mutated.  In the
heap-instrumented reading of the factory body, the call only ever appends
a freshly allocated copy to the heap: after the call the caller's cell —
every field of it, `className` included — still holds its original
contents, and the properties forwarded to the host constructor are the
fresh copy with the normalized `className`. -/
theorem C10_caller_props_not_mutated (tag : String) (h : Heap) (r : Nat)
    (cs : List JSVal) (hr : r < h.objs.length)
    (hc : isUndef (getField (h.lookup r) "className") = false) :
    (createElementH tag h (.ref r) cs).1.lookup r = h.lookup r
    ∧ (createElementH tag h (.ref r) cs).2
        = reactCreateElement (.tag tag)
            (.obj (setField (h.lookup r) "className"
              (.str (clsx (getField (h.lookup r) "className"))))) cs := by
  constructor
  · show Heap.lookup _ r = _
    simp only [createElementH, hc, Bool.false_eq_true, if_false]
    exact getD_append_of_lt h.objs _ r hr
  · simp [createElementH, hc]

/-- C10 witness: a one-cell heap holding `{className: null}`. -/
theorem C10_caller_props_not_mutated_witness :
    (createElementH "div" ⟨[[("className", JSVal.null)]]⟩ (.ref 0) []).1.lookup 0
        = Heap.lookup ⟨[[("className", JSVal.null)]]⟩ 0
    ∧ (createElementH "div" ⟨[[("className", JSVal.null)]]⟩ (.ref 0) []).2
        = reactCreateElement (.tag "div")
            (.obj (setField (Heap.lookup ⟨[[("className", JSVal.null)]]⟩ 0) "className"
              (.str (clsx (getField
                (Heap.lookup ⟨[[("className", JSVal.null)]]⟩ 0) "className"))))) [] :=
  C10_caller_props_not_mutated "div" ⟨[[("className", JSVal.null)]]⟩ 0 []
    (by decide) rfl
